import Mathlib

/-!
Shallow embedding of `src/objects-tasks.js` (maria-akulova/core-js-objects):
the `CssSelectorBuilder` class (fluent CSS selector builder with ordering and
singleton rules) and the `sellTickets` function.

JavaScript mutation is modelled by explicit state passing: each operation takes
a `CssSelectorBuilder` value and returns the post state.  A thrown `Error` is
modelled as an `Option SelectorError` paired with the post state (in JS a throw
does not roll back mutations already performed, so the post state is returned
even on failure, exactly as the interpreter leaves the object).
-/

namespace ObjectsTasks

/-- The two failure conditions of `checkUsage`: the ordering violation
("Selector parts should be arranged in the following order ...") and the
duplicate violation ("Element, id and pseudo-element should not occur more
then one time ..."). -/
inductive SelectorError where
  | orderingError
  | duplicateError
deriving DecidableEq, Repr

/-- The six fragment kinds appended through `checkUsage`:
`element`, `id`, `class`, `attr`, `pseudoClass`, `pseudoElement`. -/
inductive Kind where
  | element
  | id
  | «class»
  | attr
  | pseudoClass
  | pseudoElement
deriving DecidableEq, Repr

/-- State of a `CssSelectorBuilder` instance.  Mirrors the constructor:
`result` is the accumulated string, `previousOrder` the rank of the last
appended fragment, and each `...Used` field is the `[usedFlag, rankNumber]`
pair stored on the object (`[false, 0]`, `[false, 1]`, ...). -/
structure CssSelectorBuilder where
  result : String
  previousOrder : Nat
  elementUsed : Bool × Nat
  idUsed : Bool × Nat
  classUsed : Bool × Nat
  attrUsed : Bool × Nat
  pseudoClassUsed : Bool × Nat
  pseudoElementUsed : Bool × Nat
  combinatorUsed : Bool × Nat
deriving DecidableEq, Repr

/-- `new CssSelectorBuilder()`: the constructor's field initialisation. -/
def mkBuilder : CssSelectorBuilder where
  result := ""
  previousOrder := 0
  elementUsed := (false, 0)
  idUsed := (false, 1)
  classUsed := (false, 2)
  attrUsed := (false, 3)
  pseudoClassUsed := (false, 4)
  pseudoElementUsed := (false, 5)
  combinatorUsed := (false, 6)

namespace CssSelectorBuilder

/-- `this[methodName + "Used"]`: the `[usedFlag, rankNumber]` pair looked up
by `checkUsage` for the given method name. -/
def usedPair (b : CssSelectorBuilder) : Kind → Bool × Nat
  | .element => b.elementUsed
  | .id => b.idUsed
  | .«class» => b.classUsed
  | .attr => b.attrUsed
  | .pseudoClass => b.pseudoClassUsed
  | .pseudoElement => b.pseudoElementUsed

/-- `this[usedFlag][0] = true`: set the used flag of the given kind, keeping
the rank component of the pair. -/
def setUsedFlag (b : CssSelectorBuilder) (k : Kind) : CssSelectorBuilder :=
  match k with
  | .element => { b with elementUsed := (true, b.elementUsed.2) }
  | .id => { b with idUsed := (true, b.idUsed.2) }
  | .«class» => { b with classUsed := (true, b.classUsed.2) }
  | .attr => { b with attrUsed := (true, b.attrUsed.2) }
  | .pseudoClass => { b with pseudoClassUsed := (true, b.pseudoClassUsed.2) }
  | .pseudoElement => { b with pseudoElementUsed := (true, b.pseudoElementUsed.2) }

/-- The membership test
`['classUsed', 'attrUsed', 'pseudoClassUsed', 'combinatorUsed'].includes(usedFlag)`
restricted to the six kinds that reach it (`combinator` is never a kind). -/
def isRepeatable : Kind → Bool
  | .«class» => true
  | .attr => true
  | .pseudoClass => true
  | _ => false

/-- `checkUsage(methodName)`.  Returns the post state together with the error
thrown, if any.  Note the source updates `this.previousOrder` before the
duplicate check, so the duplicate failure path still carries that update. -/
def checkUsage (b : CssSelectorBuilder) (k : Kind) :
    CssSelectorBuilder × Option SelectorError :=
  if (b.usedPair k).2 < b.previousOrder then
    (b, some .orderingError)
  else
    let flag := (b.usedPair k).2
    let b1 := { b with previousOrder := flag }
    if isRepeatable k then
      (b1, none)
    else if (b1.usedPair k).1 then
      (b1, some .duplicateError)
    else
      (b1.setUsedFlag k, none)

/-- The formatted text each append method adds to `this.result`:
`value`, `#value`, `.value`, `[value]`, `:value`, `::value`. -/
def format (k : Kind) (value : String) : String :=
  match k with
  | .element => value
  | .id => "#" ++ value
  | .«class» => "." ++ value
  | .attr => "[" ++ value ++ "]"
  | .pseudoClass => ":" ++ value
  | .pseudoElement => "::" ++ value

/-- The common body of `element` / `id` / `class` / `attr` / `pseudoClass` /
`pseudoElement`: run `checkUsage`, and if it did not throw, append the
formatted value to `this.result`. -/
def append (b : CssSelectorBuilder) (k : Kind) (value : String) :
    CssSelectorBuilder × Option SelectorError :=
  let c := b.checkUsage k
  match c.2 with
  | some e => (c.1, some e)
  | none => ({ c.1 with result := c.1.result ++ format k value }, none)

/-- `reset()`: restore every field to its constructor value. -/
def reset (b : CssSelectorBuilder) : CssSelectorBuilder :=
  { b with
    result := ""
    previousOrder := 0
    elementUsed := (false, 0)
    idUsed := (false, 1)
    classUsed := (false, 2)
    attrUsed := (false, 3)
    pseudoClassUsed := (false, 4)
    pseudoElementUsed := (false, 5)
    combinatorUsed := (false, 6) }

/-- `stringify()`: capture `this.result`, call `reset()`, return the captured
string.  The pair is (returned string, post state of the builder). -/
def stringify (b : CssSelectorBuilder) : String × CssSelectorBuilder :=
  (b.result, b.reset)

/-- `CssSelectorBuilder.prototype.combine(selector1, combinator, selector2)`:
stringifies both arguments (mutating them), makes a fresh builder and sets its
`result`.  Returns (new builder, post state of selector1, post state of
selector2). -/
def combine (selector1 : CssSelectorBuilder) (combinator : String)
    (selector2 : CssSelectorBuilder) :
    CssSelectorBuilder × CssSelectorBuilder × CssSelectorBuilder :=
  let s1 := selector1.stringify
  let s2 := selector2.stringify
  ({ mkBuilder with result := s1.1 ++ " " ++ combinator ++ " " ++ s2.1 }, s1.2, s2.2)

/-- Run a list of append calls in order, stopping at the first thrown error
(as a chained call `b.element(..).id(..)...` would). -/
def appendList (b : CssSelectorBuilder) :
    List (Kind × String) → CssSelectorBuilder × Option SelectorError
  | [] => (b, none)
  | p :: rest =>
    match b.append p.1 p.2 with
    | (b1, none) => b1.appendList rest
    | (b1, some e) => (b1, some e)

end CssSelectorBuilder

/-- `sellTickets(queue)`: fold the queue adding 25 for a 25 bill and
subtracting the bill otherwise, then test the final sum. -/
def sellTickets (queue : List Int) : Bool :=
  let sum := queue.foldl (fun s el => if el = 25 then s + 25 else s - el) 0
  if sum < 0 then false else true

namespace CssSelectorBuilder

/-- The rank table of the spec (element=0, id=1, class=2, attribute=3,
pseudo-class=4, pseudo-element=5); it agrees with the rank components the
constructor stores in the `...Used` pairs. -/
def rank : Kind → Nat
  | .element => 0
  | .id => 1
  | .«class» => 2
  | .attr => 3
  | .pseudoClass => 4
  | .pseudoElement => 5

/-- The rank components of the `...Used` pairs hold the constructor's values
(they are never written after construction). -/
def RanksOk (b : CssSelectorBuilder) : Prop :=
  b.elementUsed.2 = 0 ∧ b.idUsed.2 = 1 ∧ b.classUsed.2 = 2 ∧ b.attrUsed.2 = 3 ∧
    b.pseudoClassUsed.2 = 4 ∧ b.pseudoElementUsed.2 = 5

/-- A set singleton flag means a fragment of that rank was appended, so
`previousOrder` has reached that rank. -/
def FlagsOk (b : CssSelectorBuilder) : Prop :=
  (b.idUsed.1 = true → 1 ≤ b.previousOrder) ∧
    (b.pseudoElementUsed.1 = true → 5 ≤ b.previousOrder)

/-- The state invariant maintained by every operation of the builder. -/
def Inv (b : CssSelectorBuilder) : Prop :=
  RanksOk b ∧ FlagsOk b

instance (b : CssSelectorBuilder) : Decidable (Inv b) := by
  unfold Inv RanksOk FlagsOk; infer_instance

/-- States a `CssSelectorBuilder` object can actually be in at runtime:
freshly constructed, the fresh-with-result state built by `combine`, the post
state of any append call (successful or throwing), or the post state of
`stringify`. -/
inductive Reachable : CssSelectorBuilder → Prop where
  | init : Reachable mkBuilder
  | combined (s : String) : Reachable { mkBuilder with result := s }
  | step {b : CssSelectorBuilder} (k : Kind) (v : String) :
      Reachable b → Reachable (b.append k v).1
  | finalize {b : CssSelectorBuilder} :
      Reachable b → Reachable b.stringify.2

/-- Concatenation, in call order, of the formatted text of a list of
fragments. -/
def formats : List (Kind × String) → String
  | [] => ""
  | p :: rest => format p.1 p.2 ++ formats rest

theorem usedPair_rank {b : CssSelectorBuilder} (hr : RanksOk b) (k : Kind) :
    (b.usedPair k).2 = rank k := by
  obtain ⟨h0, h1, h2, h3, h4, h5⟩ := hr
  cases k <;> simp [usedPair, rank, h0, h1, h2, h3, h4, h5]

theorem setUsedFlag_result (b : CssSelectorBuilder) (k : Kind) :
    (b.setUsedFlag k).result = b.result := by
  cases k <;> rfl

theorem checkUsage_result (b : CssSelectorBuilder) (k : Kind) :
    (b.checkUsage k).1.result = b.result := by
  simp only [checkUsage]
  split_ifs <;> simp [setUsedFlag_result]

theorem append_def (b : CssSelectorBuilder) (k : Kind) (v : String) :
    b.append k v =
      match (b.checkUsage k).2 with
      | some e => ((b.checkUsage k).1, some e)
      | none =>
        ({ (b.checkUsage k).1 with
            result := (b.checkUsage k).1.result ++ format k v }, none) := rfl

theorem append_of_err {b : CssSelectorBuilder} {k : Kind} {e : SelectorError}
    (h : (b.checkUsage k).2 = some e) (v : String) :
    b.append k v = ((b.checkUsage k).1, some e) := by
  rw [append_def, h]

theorem append_of_ok {b : CssSelectorBuilder} {k : Kind}
    (h : (b.checkUsage k).2 = none) (v : String) :
    b.append k v =
      ({ (b.checkUsage k).1 with result := b.result ++ format k v }, none) := by
  rw [append_def, h, checkUsage_result]

theorem append_err_iff (b : CssSelectorBuilder) (k : Kind) (v : String)
    (e : SelectorError) : (b.append k v).2 = some e ↔ (b.checkUsage k).2 = some e := by
  rw [append_def]
  cases h : (b.checkUsage k).2 <;> simp

theorem usedPair_previousOrder (b : CssSelectorBuilder) (n : Nat) (k : Kind) :
    ({ b with previousOrder := n } : CssSelectorBuilder).usedPair k = b.usedPair k := by
  cases k <;> rfl

theorem checkUsage_ordering_iff {b : CssSelectorBuilder} (hr : RanksOk b) (k : Kind) :
    (b.checkUsage k).2 = some .orderingError ↔ rank k < b.previousOrder := by
  simp only [checkUsage, usedPair_previousOrder, usedPair_rank hr k]
  split_ifs with h1 h2 h3 <;> simp [h1]

theorem checkUsage_duplicate_iff {b : CssSelectorBuilder} (hr : RanksOk b) (k : Kind) :
    (b.checkUsage k).2 = some .duplicateError ↔
      isRepeatable k = false ∧ (b.usedPair k).1 = true ∧ ¬rank k < b.previousOrder := by
  simp only [checkUsage, usedPair_previousOrder, usedPair_rank hr k]
  split_ifs with h1 h2 h3 <;> simp_all

theorem checkUsage_err_state {b : CssSelectorBuilder} (hI : Inv b) (k : Kind)
    {e : SelectorError} (h : (b.checkUsage k).2 = some e) :
    (b.checkUsage k).1 = b := by
  obtain ⟨hr, hf1, hf2⟩ := hI
  by_cases h1 : rank k < b.previousOrder
  · simp [checkUsage, usedPair_rank hr k, h1]
  · by_cases h2 : isRepeatable k = true
    · simp [checkUsage, usedPair_rank hr k, h1, h2] at h
    · by_cases h3 : (b.usedPair k).1 = true
      · have hprev : b.previousOrder ≤ rank k := Nat.le_of_not_lt h1
        have hrk : rank k = b.previousOrder := by
          cases k
          · exact Nat.le_antisymm (Nat.zero_le _) hprev
          · exact Nat.le_antisymm (hf1 (by simpa [usedPair] using h3)) hprev
          · simp [isRepeatable] at h2
          · simp [isRepeatable] at h2
          · simp [isRepeatable] at h2
          · exact Nat.le_antisymm (hf2 (by simpa [usedPair] using h3)) hprev
        simp only [checkUsage, usedPair_previousOrder, usedPair_rank hr k,
          if_neg h1, h2, if_false, Bool.false_eq_true, h3, if_true, hrk]
        simp
      · simp [checkUsage, usedPair_previousOrder, usedPair_rank hr k, h1, h2, h3] at h

theorem inv_checkUsage {b : CssSelectorBuilder} (hI : Inv b) (k : Kind) :
    Inv (b.checkUsage k).1 := by
  obtain ⟨⟨e0, e1, e2, e3, e4, e5⟩, f1, f2⟩ := hI
  cases k <;>
    simp only [checkUsage, usedPair, setUsedFlag, isRepeatable, Inv, RanksOk,
      FlagsOk] at * <;>
    split_ifs <;>
    refine ⟨⟨?_, ?_, ?_, ?_, ?_, ?_⟩, ?_, ?_⟩ <;>
    intros <;> (try simp_all) <;> omega

theorem inv_result_update (b : CssSelectorBuilder) (r : String) :
    Inv { b with result := r } ↔ Inv b := by
  simp [Inv, RanksOk, FlagsOk]

theorem inv_append {b : CssSelectorBuilder} (hI : Inv b) (k : Kind) (v : String) :
    Inv (b.append k v).1 := by
  rw [append_def]
  cases h : (b.checkUsage k).2
  · simpa [inv_result_update] using inv_checkUsage hI k
  · simpa using inv_checkUsage hI k

theorem inv_reset (b : CssSelectorBuilder) : Inv b.reset := by
  simp [Inv, RanksOk, FlagsOk, reset]

theorem reachable_inv {b : CssSelectorBuilder} (h : Reachable b) : Inv b := by
  induction h with
  | init => decide
  | combined s => simp [Inv, RanksOk, FlagsOk, mkBuilder]
  | step k v hb ih => exact inv_append ih k v
  | @finalize c hc ih => exact inv_reset c

theorem appendList_ok_result (l : List (Kind × String)) :
    ∀ b : CssSelectorBuilder, (b.appendList l).2 = none →
      (b.appendList l).1.result = b.result ++ formats l := by
  induction l with
  | nil => intro b _; simp [appendList, formats, String.append_empty]
  | cons p rest ih =>
    intro b h
    cases hc : (b.checkUsage p.1).2 with
    | none =>
      have ha := append_of_ok hc p.2
      simp only [appendList, ha] at h ⊢
      rw [ih _ h]
      simp [formats, String.append_assoc]
    | some e =>
      have ha := append_of_err hc p.2
      simp [appendList, ha] at h

theorem reset_eq_mkBuilder (b : CssSelectorBuilder) : b.reset = mkBuilder := rfl

theorem checkUsage_fresh (r : String) (k : Kind) :
    (({ mkBuilder with result := r } : CssSelectorBuilder).checkUsage k).2 = none := by
  cases k <;> rfl

/-- Claim C1: a sequence of appends that all succeed (respecting rank order
and singleton constraints) makes `stringify()` return exactly the
concatenation, in call order, of each fragment's formatted text
(element `value`, id `#value`, class `.value`, attribute `[value]`,
pseudo-class `:value`, pseudo-element `::value`). -/
theorem claim_C1_stringify_formats (l : List (Kind × String))
    (h : (mkBuilder.appendList l).2 = none) :
    (mkBuilder.appendList l).1.stringify.1 = formats l := by
  have hr := appendList_ok_result l mkBuilder h
  simpa [stringify, mkBuilder, String.empty_append] using hr

/-- Witness for claim C1 at the spec's example chain
`element('a').id('main').class('x').attr('href$=".png"').pseudoClass('focus').pseudoElement('before')`. -/
theorem claim_C1_witness :
    (mkBuilder.appendList [(.element, "a"), (.id, "main"), (.«class», "x"),
        (.attr, "href$=\".png\""), (.pseudoClass, "focus"),
        (.pseudoElement, "before")]).2 = none ∧
      (mkBuilder.appendList [(.element, "a"), (.id, "main"), (.«class», "x"),
          (.attr, "href$=\".png\""), (.pseudoClass, "focus"),
          (.pseudoElement, "before")]).1.stringify.1 =
        "a#main.x[href$=\".png\"]:focus::before" :=
  ⟨by decide,
    (claim_C1_stringify_formats
        [(.element, "a"), (.id, "main"), (.«class», "x"),
          (.attr, "href$=\".png\""), (.pseudoClass, "focus"),
          (.pseudoElement, "before")] (by decide)).trans (by decide)⟩

/-- Claim C2: an append throws the ordering error exactly when the kind's
rank (element=0, id=1, class=2, attribute=3, pseudo-class=4,
pseudo-element=5) is strictly below the running `previousOrder`; equal rank
never triggers it, and only this single running value is compared. -/
theorem claim_C2_ordering_error_iff (b : CssSelectorBuilder) (k : Kind)
    (v : String) (hI : Inv b) :
    (b.append k v).2 = some SelectorError.orderingError ↔
      rank k < b.previousOrder := by
  rw [append_err_iff]
  exact checkUsage_ordering_iff hI.1 k

/-- Witness for claim C2: after `attr` the running rank is 3, so a following
`class` (rank 2, a repeatable kind) throws the ordering error. -/
theorem claim_C2_witness :
    Inv (mkBuilder.append .attr "x").1 ∧
      rank .«class» < (mkBuilder.append .attr "x").1.previousOrder ∧
      ((mkBuilder.append .attr "x").1.append .«class» "a").2 =
        some SelectorError.orderingError :=
  ⟨by decide, by decide,
    (claim_C2_ordering_error_iff (mkBuilder.append .attr "x").1 .«class» "a"
        (by decide)).mpr (by decide)⟩

/-- Claim C3: an append throws the duplicate error exactly when its kind is a
singleton (element, id, pseudo-element), its used flag is already set, and
the ordering check (performed first) passed; the repeatable kinds class,
attribute and pseudo-class never throw it. -/
theorem claim_C3_duplicate_error_iff (b : CssSelectorBuilder) (k : Kind)
    (v : String) (hI : Inv b) :
    (b.append k v).2 = some SelectorError.duplicateError ↔
      isRepeatable k = false ∧ (b.usedPair k).1 = true ∧
        ¬rank k < b.previousOrder := by
  rw [append_err_iff]
  exact checkUsage_duplicate_iff hI.1 k

/-- Witness for claim C3: appending `element` twice throws the duplicate
error. -/
theorem claim_C3_witness :
    Inv (mkBuilder.append .element "div").1 ∧
      ((mkBuilder.append .element "div").1.append .element "p").2 =
        some SelectorError.duplicateError :=
  ⟨by decide,
    (claim_C3_duplicate_error_iff (mkBuilder.append .element "div").1 .element
        "p" (by decide)).mpr (by decide)⟩

/-- Claim C4: in every state the builder can actually be in, an append call
that throws (either error) leaves the whole state — accumulated string,
`previousOrder` and every used flag — exactly as it was. -/
theorem claim_C4_failed_append_preserves_state (b : CssSelectorBuilder)
    (hb : Reachable b) (k : Kind) (v : String) (e : SelectorError)
    (h : (b.append k v).2 = some e) : (b.append k v).1 = b := by
  have hI := reachable_inv hb
  have he : (b.checkUsage k).2 = some e := (append_err_iff b k v e).mp h
  rw [append_of_err he v]
  exact checkUsage_err_state hI k he

/-- Witness for claim C4: `element` after `id` throws the ordering error and
the builder state is unchanged. -/
theorem claim_C4_witness :
    ((mkBuilder.append .id "main").1.append .element "a").2 =
        some SelectorError.orderingError ∧
      ((mkBuilder.append .id "main").1.append .element "a").1 =
        (mkBuilder.append .id "main").1 :=
  ⟨by decide,
    claim_C4_failed_append_preserves_state (mkBuilder.append .id "main").1
      (Reachable.step .id "main" Reachable.init) .element "a"
      SelectorError.orderingError (by decide)⟩

/-- Claim C5: `combine(first, combinator, second)` builds a new builder whose
accumulated string — and hence its `stringify()` output — is first's
finalized string, a space, the combinator token, a space, and second's
finalized string. -/
theorem claim_C5_combine_concatenates (s1 : CssSelectorBuilder) (c : String)
    (s2 : CssSelectorBuilder) :
    (combine s1 c s2).1.result =
        s1.stringify.1 ++ " " ++ c ++ " " ++ s2.stringify.1 ∧
      (combine s1 c s2).1.stringify.1 =
        s1.stringify.1 ++ " " ++ c ++ " " ++ s2.stringify.1 :=
  ⟨rfl, rfl⟩

/-- Claim C6: `combine` finalizes both of its inputs, leaving each in the
fresh initial state, and the builder it returns is a fresh instance owning
only the combined string, sharing no state with the inputs. -/
theorem claim_C6_combine_resets_inputs (s1 : CssSelectorBuilder) (c : String)
    (s2 : CssSelectorBuilder) :
    (combine s1 c s2).2.1 = mkBuilder ∧ (combine s1 c s2).2.2 = mkBuilder ∧
      (combine s1 c s2).1 =
        { mkBuilder with
          result := s1.stringify.1 ++ " " ++ c ++ " " ++ s2.stringify.1 } :=
  ⟨rfl, rfl, rfl⟩

/-- Claim C7: `stringify()` returns the accumulated string and resets the
builder to the fresh initial state, so subsequent use of the same instance
starts exactly as on a newly constructed builder. -/
theorem claim_C7_stringify_returns_and_resets (b : CssSelectorBuilder) :
    b.stringify.1 = b.result ∧ b.stringify.2 = mkBuilder :=
  ⟨rfl, rfl⟩

/-- Claim C8: `combine` is associative over finalized strings: nesting a
prior combine on the left or on the right yields the same `stringify()`
output. -/
theorem claim_C8_combine_assoc (a : CssSelectorBuilder) (c1 : String)
    (b : CssSelectorBuilder) (c2 : String) (c : CssSelectorBuilder) :
    (combine (combine a c1 b).1 c2 c).1.stringify.1 =
      (combine a c1 (combine b c2 c).1).1.stringify.1 := by
  simp [combine, stringify, String.append_assoc]

/-- Claim C9: a builder returned by `combine` has the `previousOrder` and
used flags of a freshly constructed builder, and any fragment append on it
succeeds, concatenating its formatted text directly after the combined
string. -/
theorem claim_C9_combined_accepts_appends (s1 : CssSelectorBuilder)
    (c : String) (s2 : CssSelectorBuilder) (k : Kind) (v : String) :
    (combine s1 c s2).1.previousOrder = mkBuilder.previousOrder ∧
      (combine s1 c s2).1.elementUsed = mkBuilder.elementUsed ∧
      (combine s1 c s2).1.idUsed = mkBuilder.idUsed ∧
      (combine s1 c s2).1.classUsed = mkBuilder.classUsed ∧
      (combine s1 c s2).1.attrUsed = mkBuilder.attrUsed ∧
      (combine s1 c s2).1.pseudoClassUsed = mkBuilder.pseudoClassUsed ∧
      (combine s1 c s2).1.pseudoElementUsed = mkBuilder.pseudoElementUsed ∧
      (combine s1 c s2).1.combinatorUsed = mkBuilder.combinatorUsed ∧
      ((combine s1 c s2).1.append k v).2 = none ∧
      ((combine s1 c s2).1.append k v).1.result =
        (combine s1 c s2).1.result ++ format k v := by
  have hfresh := checkUsage_fresh
      (s1.stringify.1 ++ " " ++ c ++ " " ++ s2.stringify.1) k
  have ha := append_of_ok hfresh v
  refine ⟨rfl, rfl, rfl, rfl, rfl, rfl, rfl, rfl, ?_, ?_⟩
  · show (({ mkBuilder with
        result := s1.stringify.1 ++ " " ++ c ++ " " ++ s2.stringify.1 } :
          CssSelectorBuilder).append k v).2 = none
    rw [ha]
  · show (({ mkBuilder with
        result := s1.stringify.1 ++ " " ++ c ++ " " ++ s2.stringify.1 } :
          CssSelectorBuilder).append k v).1.result = _
    rw [ha]
    rfl

end CssSelectorBuilder

theorem sellTickets_def (queue : List Int) :
    sellTickets queue =
      if queue.foldl (fun s el => if el = 25 then s + 25 else s - el) 0 < 0 then
        false
      else true := rfl

theorem sellTickets_foldl (q : List Int) :
    ∀ s : Int,
      q.foldl (fun s el => if el = 25 then s + 25 else s - el) s =
        s + (q.filter fun el => el == 25).sum -
          (q.filter fun el => !(el == 25)).sum := by
  induction q with
  | nil => intro s; simp
  | cons a q ih =>
    intro s
    by_cases ha : a = 25
    · simp only [List.foldl_cons, if_pos ha, ih, List.filter_cons, ha]
      simp
      omega
    · have hb : (a == 25) = false := by simpa using ha
      simp only [List.foldl_cons, if_neg ha, ih, List.filter_cons, hb]
      simp
      omega

/-- Claim C10: `sellTickets(queue)` is true exactly when the total of the 25
bills is at least the total of all other bills; only this final aggregate
matters, not the order of customers or the change available step by step. -/
theorem claim_C10_sellTickets_aggregate (queue : List Int) :
    sellTickets queue = true ↔
      (queue.filter fun el => !(el == 25)).sum ≤
        (queue.filter fun el => el == 25).sum := by
  rw [sellTickets_def, sellTickets_foldl queue 0]
  split_ifs with h
  · simp only [Bool.false_eq_true, false_iff]
    omega
  · simp only [true_iff]
    omega

end ObjectsTasks
